import Mathlib

/-!
Verification development for the trajectory function-wrapper module of the
asyncmd repository (src/asyncmd/trajectory/functionwrapper.py).

The Python code is shallowly embedded: pure helpers become Lean functions,
Python values that can appear as keyword-argument values become the inductive
type `PyValue`, machine hashing (hashlib.blake2b) is implemented bit-for-bit
over `Nat` with explicit reduction modulo 2^64, and the effectful body of
`SlurmTrajectoryFunctionWrapper.get_values_for_trajectory` becomes a function
from an environment (semaphore configuration, scheduler results, cancellation
point) to the list of external effects it performs plus its outcome.
-/

/-- Model of the Python values that can appear as `call_kwargs` values or as
attribute values on a wrapper instance. -/
inductive PyValue where
  | VNone : PyValue
  | VBool : Bool → PyValue
  | VInt : Int → PyValue
  | VStr : String → PyValue
  | VList : List PyValue → PyValue
  | VDict : List (String × PyValue) → PyValue

open PyValue

/-- Single-quote character, written via an escape. -/
def sQuote : String := "\x27"

mutual

/-- Python `repr()` on the modelled values (string quoting approximated by
plain single quotes, which is exact for strings without quotes/escapes). -/
def pyRepr : PyValue → String
  | VNone => "None"
  | VBool true => "True"
  | VBool false => "False"
  | VInt n => toString n
  | VStr s => sQuote ++ s ++ sQuote
  | VList xs => "[" ++ ", ".intercalate (pyReprList xs) ++ "]"
  | VDict ps => "\x7b" ++ ", ".intercalate (pyReprPairs ps) ++ "\x7d"

/-- Python `repr()` of each element of a list. -/
def pyReprList : List PyValue → List String
  | [] => []
  | x :: xs => pyRepr x :: pyReprList xs

/-- Python `repr()` of each key-value pair of a dict. -/
def pyReprPairs : List (String × PyValue) → List String
  | [] => []
  | (k, v) :: ps => (sQuote ++ k ++ sQuote ++ ": " ++ pyRepr v) :: pyReprPairs ps

end

/-- Python `str()` on the modelled values: identity on strings, `repr`
otherwise (lists and dicts have no own `__str__`). -/
def pyStr : PyValue → String
  | VStr s => s
  | v => pyRepr v

/-- Python types of the modelled values (used by the `isinstance` checks in
the constructor and the `call_kwargs` setter). -/
inductive PyType where
  | TNone | TBool | TInt | TStr | TList | TDict
  deriving DecidableEq, Repr

/-- Python `type()` of a modelled value. -/
def typeOf : PyValue → PyType
  | VNone => .TNone
  | VBool _ => .TBool
  | VInt _ => .TInt
  | VStr _ => .TStr
  | VList _ => .TList
  | VDict _ => .TDict

/-- Python `isinstance(v, t)` over the modelled types: exact type match, plus
the one builtin subclass relation among these types (`bool` is a subclass of
`int` in Python). -/
def isInst (v : PyValue) (t : PyType) : Bool :=
  typeOf v == t || (typeOf v == PyType.TBool && t == PyType.TInt)

/-! ### blake2b (RFC 7693, unkeyed, 64-byte digest), over `Nat` mod 2^64 -/

/-- Reduction modulo the 64-bit word size. -/
def w64 (x : Nat) : Nat := x % 18446744073709551616

/-- Rotate a 64-bit word right by `n` bits. -/
def rotr64 (x n : Nat) : Nat := w64 ((x >>> n) ||| (x <<< (64 - n)))

/-- The blake2b initialization vector (eight 64-bit words). -/
def blakeIV : List Nat :=
  [0x6a09e667f3bcc908, 0xbb67ae8584caa73b, 0x3c6ef372fe94f82b,
   0xa54ff53a5f1d36f1, 0x510e527fade682d1, 0x9b05688c2b3e6c1f,
   0x1f83d9abfb41bd6b, 0x5be0cd19137e2179]

/-- The blake2b message schedule (ten permutations of 0..15). -/
def blakeSigma : List (List Nat) :=
  [[0, 1, 2, 3, 4, 5, 6, 7, 8, 9, 10, 11, 12, 13, 14, 15],
   [14, 10, 4, 8, 9, 15, 13, 6, 1, 12, 0, 2, 11, 7, 5, 3],
   [11, 8, 12, 0, 5, 2, 15, 13, 10, 14, 3, 6, 7, 1, 9, 4],
   [7, 9, 3, 1, 13, 12, 11, 14, 2, 6, 5, 10, 4, 0, 15, 8],
   [9, 0, 5, 7, 2, 4, 10, 15, 14, 1, 11, 12, 6, 8, 3, 13],
   [2, 12, 6, 10, 0, 11, 8, 3, 4, 13, 7, 5, 15, 14, 1, 9],
   [12, 5, 1, 15, 14, 13, 4, 10, 0, 7, 6, 3, 9, 2, 8, 11],
   [13, 11, 7, 14, 12, 1, 3, 9, 5, 0, 15, 4, 8, 6, 2, 10],
   [6, 15, 14, 9, 11, 3, 0, 8, 12, 2, 13, 7, 1, 4, 10, 5],
   [10, 2, 8, 4, 7, 6, 1, 5, 15, 11, 9, 14, 3, 12, 13, 0]]

/-- List indexing with default 0 (state and schedule vectors). -/
def lget (l : List Nat) (i : Nat) : Nat := l.getD i 0

/-- The blake2b G mixing function on the 16-word state `v`. -/
def blakeG (v : List Nat) (a b c d x y : Nat) : List Nat :=
  let va := w64 (lget v a + lget v b + x)
  let vd := rotr64 (Nat.xor (lget v d) va) 32
  let vc := w64 (lget v c + vd)
  let vb := rotr64 (Nat.xor (lget v b) vc) 24
  let va := w64 (va + vb + y)
  let vd := rotr64 (Nat.xor vd va) 16
  let vc := w64 (vc + vd)
  let vb := rotr64 (Nat.xor vb vc) 63
  ((((v.set a va).set b vb).set c vc).set d vd)

/-- One blake2b round: columns then diagonals, message words picked by the
schedule row `s`. -/
def blakeRound (m : List Nat) (v : List Nat) (s : List Nat) : List Nat :=
  let v := blakeG v 0 4 8 12 (lget m (lget s 0)) (lget m (lget s 1))
  let v := blakeG v 1 5 9 13 (lget m (lget s 2)) (lget m (lget s 3))
  let v := blakeG v 2 6 10 14 (lget m (lget s 4)) (lget m (lget s 5))
  let v := blakeG v 3 7 11 15 (lget m (lget s 6)) (lget m (lget s 7))
  let v := blakeG v 0 5 10 15 (lget m (lget s 8)) (lget m (lget s 9))
  let v := blakeG v 1 6 11 12 (lget m (lget s 10)) (lget m (lget s 11))
  let v := blakeG v 2 7 8 13 (lget m (lget s 12)) (lget m (lget s 13))
  blakeG v 3 4 9 14 (lget m (lget s 14)) (lget m (lget s 15))

/-- The blake2b compression function F: state `h`, message block words `m`,
byte counter `t`, finalization flag `last`. -/
def blakeCompress (h : List Nat) (m : List Nat) (t : Nat) (last : Bool) : List Nat :=
  let v := h ++ blakeIV
  let v := v.set 12 (Nat.xor (lget v 12) (w64 t))
  let v := v.set 13 (Nat.xor (lget v 13) (t / 18446744073709551616))
  let v := if last then v.set 14 (Nat.xor (lget v 14) 0xffffffffffffffff) else v
  let v := (List.range 12).foldl (fun v i => blakeRound m v (blakeSigma.getD (i % 10) [])) v
  (List.range 8).map (fun i => Nat.xor (lget h i) (Nat.xor (lget v i) (lget v (i + 8))))

/-- Sixteen little-endian 64-bit words from a (zero-padded) 128-byte block. -/
def bytesToWords (block : List Nat) : List Nat :=
  (List.range 16).map (fun i =>
    (List.range 8).foldr (fun j acc => acc * 256 + block.getD (8 * i + j) 0) 0)

/-- Main blake2b block loop, structurally recursive on a fuel bound so that
it reduces in the kernel: `count` is the number of message bytes already
compressed; the final (≤ 128 byte) block is zero-padded and flagged last. -/
def blakeLoopGo : Nat → List Nat → List Nat → Nat → List Nat
  | 0, h, data, count =>
      blakeCompress h (bytesToWords (data ++ List.replicate (128 - data.length) 0))
        (count + data.length) true
  | fuel + 1, h, data, count =>
      if data.length ≤ 128 then
        blakeCompress h (bytesToWords (data ++ List.replicate (128 - data.length) 0))
          (count + data.length) true
      else
        blakeLoopGo fuel (blakeCompress h (bytesToWords (data.take 128)) (count + 128) false)
          (data.drop 128) (count + 128)

/-- Main blake2b block loop (fuel instantiated with the message length, which
bounds the number of 128-byte blocks). -/
def blakeLoop (h : List Nat) (data : List Nat) (count : Nat) : List Nat :=
  blakeLoopGo data.length h data count

/-- Little-endian bytes of one 64-bit word. -/
def wordLEBytes (w : Nat) : List Nat :=
  (List.range 8).map (fun j => (w >>> (8 * j)) % 256)

/-- Value of a byte sequence read as a big-endian number: this is what
Python's `int(hexdigest, 16)` computes from the digest's hex string. -/
def bytesBE (bs : List Nat) : Nat := bs.foldl (fun acc b => acc * 256 + b) 0

/-- Unkeyed blake2b with 64-byte digest of a byte sequence, returned as the
natural number Python obtains via `int(hashlib.blake2b(data).hexdigest(), 16)`. -/
def blake2bNat (data : List Nat) : Nat :=
  let h0 := blakeIV.set 0 (Nat.xor (lget blakeIV 0) 0x01010040)
  bytesBE (((blakeLoop h0 data 0).take 8).map wordLEBytes).flatten

/-- UTF-8 encoding of one character. -/
def utf8EncodeChar (c : Char) : List Nat :=
  let n := c.toNat
  if n < 0x80 then [n]
  else if n < 0x800 then [0xc0 ||| (n >>> 6), 0x80 ||| (n &&& 0x3f)]
  else if n < 0x10000 then
    [0xe0 ||| (n >>> 12), 0x80 ||| ((n >>> 6) &&& 0x3f), 0x80 ||| (n &&& 0x3f)]
  else
    [0xf0 ||| (n >>> 18), 0x80 ||| ((n >>> 12) &&& 0x3f),
     0x80 ||| ((n >>> 6) &&& 0x3f), 0x80 ||| (n &&& 0x3f)]

/-- Model of Python's `s.encode("utf-8")`. -/
def strToBytes (s : String) : List Nat := (s.data.map utf8EncodeChar).flatten

/-- Model of `int(hashlib.blake2b(str_value.encode("utf-8")).hexdigest(), 16)`
as used by both `_get_id_str` implementations. -/
def hashOfStr (s : String) : Nat := blake2bNat (strToBytes s)


/-! ### Identity derivation (`_get_id_str`) -/

/-- The accumulation loop shared by both `_get_id_str` implementations: for
each call_kwargs item, add the digest of the value's `str()` and then the
digest of the key's `str()` (keys are strings, so `str(k)` is `k`). -/
def idSum (kwargs : List (String × PyValue)) : Nat :=
  kwargs.foldl (fun idAcc kv => idAcc + hashOfStr (pyStr kv.2) + hashOfStr kv.1) 0

/-- Python `str()` of the stored `_func_src` attribute, which is `None` when
`inspect.getsource` failed and the source text otherwise. -/
def strOfFuncSrc : Option String → String
  | none => "None"
  | some s => s

/-- Little-endian decimal digits of `n`, with an explicit fuel bound (the
digit recursion terminates long before the fuel runs out). -/
def natDecRevDigits (fuel n : Nat) : List Nat :=
  match fuel with
  | 0 => []
  | f + 1 => if n < 10 then [n] else n % 10 :: natDecRevDigits f (n / 10)

/-- Model of Python `str()` on a nonnegative int: its decimal digit string. -/
def decimalStr (n : Nat) : String :=
  String.mk (((natDecRevDigits (n + 1) n).map Nat.digitChar).reverse)

/-- Model of `PyTrajectoryFunctionWrapper._get_id_str`: the kwargs digest sum
plus the digest of `str(self._func_src)`, rendered as a decimal string
(`return str(id)`). -/
def pyGetIdStr (kwargs : List (String × PyValue)) (funcSrc : Option String) : String :=
  decimalStr (idSum kwargs + hashOfStr (strOfFuncSrc funcSrc))

/-- Model of `SlurmTrajectoryFunctionWrapper._get_id_str`: the kwargs digest
sum plus the digest of the executable file's raw bytes, rendered as a decimal
string (`return str(id)`). -/
def slurmGetIdStr (kwargs : List (String × PyValue)) (exeData : List Nat) : String :=
  decimalStr (idSum kwargs + blake2bNat exeData)

/-! ### shlex.quote and the command line built for the executable -/

/-- Characters the `shlex.quote` ASCII regex treats as safe: alphanumerics,
underscore, at-sign, percent, plus, equals, colon, comma, dot, slash, dash. -/
def shlexSafeChar (c : Char) : Bool :=
  c.isAlpha || c.isDigit || c == '_' || c == '@' || c == '%' || c == '+' ||
  c == '=' || c == ':' || c == ',' || c == '.' || c == '/' || c == '-'

/-- Model of `shlex.quote`: empty strings become a pair of single quotes,
strings of safe characters pass through, anything else is wrapped in single
quotes with embedded single quotes re-quoted. -/
def shlexQuote (s : String) : String :=
  if s = "" then sQuote ++ sQuote
  else if s.data.all shlexSafeChar then s
  else sQuote ++ String.replace s sQuote (sQuote ++ "\"" ++ sQuote ++ "\"" ++ sQuote) ++ sQuote

/-- The fragment appended to the command line for one call_kwargs item: a
space, the key verbatim (keys are not escaped), a space, then the
shell-escaped value; a list value contributes one escaped token per element,
joined by spaces. -/
def kwargFrag : String × PyValue → String
  | (key, PyValue.VList vs) =>
      " " ++ key ++ " " ++ " ".intercalate (vs.map (fun v => shlexQuote (pyStr v)))
  | (key, v) => " " ++ key ++ " " ++ shlexQuote (pyStr v)

/-- Model of the `cmd_str` construction in `get_values_for_trajectory`,
mirroring the sequence of string concatenations including the (redundant)
guard on a non-empty call_kwargs dict. -/
def buildCmdStr (executable structureFile : String) (trajectoryFiles : List String)
    (resultFile : String) (kwargs : List (String × PyValue)) : String :=
  let cmdStr := executable ++ " " ++ structureFile
  let cmdStr := cmdStr ++ " " ++ " ".intercalate trajectoryFiles ++ " " ++ resultFile
  if kwargs.length > 0 then kwargs.foldl (fun c kv => c ++ kwargFrag kv) cmdStr else cmdStr

/-- Modelled from the spec (section 4.5 step 2, for comparison with the source
definition `buildCmdStr`): the command line consists, in order, of the
executable path, the trajectory's structure-file path, all trajectory
file-part paths, the result-file path, and then one " key value" fragment per
call_kwargs entry, where each value is shell-escaped individually, a
list-valued entry renders as multiple escaped tokens joined by spaces under
the same key, and keys are not escaped. -/
def specCmdLine (executable structureFile : String) (trajectoryFiles : List String)
    (resultFile : String) (kwargs : List (String × PyValue)) : String :=
  executable ++ " " ++ structureFile ++ " " ++ " ".intercalate trajectoryFiles ++ " "
    ++ resultFile
    ++ String.join (kwargs.map (fun kv =>
        match kv.2 with
        | PyValue.VList vs =>
            " " ++ kv.1 ++ " " ++ " ".intercalate (vs.map (fun v => shlexQuote (pyStr v)))
        | v => " " ++ kv.1 ++ " " ++ shlexQuote (pyStr v)))

/-! ### The `__call__` entry points -/

/-- Outcome of calling a wrapper on a value. `delegate i` stands for
`await value._apply_wrapped_func(self.id, self)` (the identity string `i` and
the wrapper itself are passed to the trajectory's cache-aware method);
`typeError` for the raised `TypeError`; `directInvoke` for
`self._func(value, **self._call_kwargs)`, a silent synchronous invocation of
the wrapped callable. -/
inductive CallOutcome where
  | delegate : String → CallOutcome
  | typeError : CallOutcome
  | directInvoke : CallOutcome
  deriving DecidableEq, Repr

/-- Model of `TrajectoryFunctionWrapper.__call__`: delegate when the argument
is a `Trajectory` and `self.id` is not `None`, else raise `TypeError`. -/
def baseDunderCall (idOpt : Option String) (isTrajectory : Bool) : CallOutcome :=
  match isTrajectory, idOpt with
  | true, some i => CallOutcome.delegate i
  | _, _ => CallOutcome.typeError

/-- Model of `PyTrajectoryFunctionWrapper.__call__`: same delegation
condition, but the else branch returns `self._func(value, **self._call_kwargs)`
instead of raising. -/
def pyDunderCall (idOpt : Option String) (isTrajectory : Bool) : CallOutcome :=
  match isTrajectory, idOpt with
  | true, some i => CallOutcome.delegate i
  | _, _ => CallOutcome.directInvoke

/-! ### The property setters -/

/-- Model of the `call_kwargs` property setter of the abstract base class.
`getIdStrFn` stands for the abstract `self._get_id_str()` supplied by the
subclass (it reads the freshly assigned `_call_kwargs`). `isinstance(value,
dict)` holds exactly for `VDict` values. On success the new `_call_kwargs`
and the recomputed `_id` are returned; otherwise the `TypeError` message. -/
def callKwargsSetter (getIdStrFn : List (String × PyValue) → String) (value : PyValue) :
    Except String (List (String × PyValue) × String) :=
  match value with
  | PyValue.VDict kws => Except.ok (kws, getIdStrFn kws)
  | _ => Except.error "call_kwargs must be a dictionary."

/-- Result state of the `PyTrajectoryFunctionWrapper.function` property
setter. -/
structure SetFunctionResult where
  func_src : Option String
  id : Option String
  funcStored : Bool
  warningLogged : Bool
  deriving DecidableEq, Repr

/-- Model of the `function` property setter. `inspect.getsource(value)` is
modelled as an `Option String` (`none` when it raises `OSError`). On `OSError`
the setter stores `_func_src = None` and `_id = None` and logs a warning
("Could not retrieve source ... No caching can/will be performed."); otherwise
it stores the source text and recomputes the id over the current
`_call_kwargs`; in both cases the `finally` clause stores the callable. The
setter never raises, so the error branch of the `Except` is never produced. -/
def functionSetter (getsourceResult : Option String)
    (kwargs : List (String × PyValue)) : Except String SetFunctionResult :=
  match getsourceResult with
  | none =>
      Except.ok { func_src := none, id := none, funcStored := true, warningLogged := true }
  | some src =>
      Except.ok { func_src := some src, id := some (pyGetIdStr kwargs (some src)),
                  funcStored := true, warningLogged := false }

/-! ### Effect-trace model of `SlurmTrajectoryFunctionWrapper.get_values_for_trajectory` -/

/-- Model of posixpath `os.path.split`: head is everything up to the final
slash with trailing slashes stripped (unless the head is all slashes), tail
is everything after the final slash. -/
def osPathSplit (p : String) : String × String :=
  match ((p.data.enum.filter (fun q => q.2 == '/')).getLast?) with
  | none => ("", p)
  | some (i, _) =>
      let headRaw := p.data.take (i + 1)
      let tail := p.data.drop (i + 1)
      let head :=
        if headRaw.all (fun c => c == '/') then headRaw
        else (headRaw.reverse.dropWhile (fun c => c == '/')).reverse
      (String.mk head, String.mk tail)

/-- The string begins with a slash (model of `startswith("/")`). -/
def headIsSlash (s : String) : Bool := s.data.headD ' ' == '/'

/-- The string ends with a slash (model of `endswith("/")`). -/
def lastIsSlash (s : String) : Bool := s.data.getLastD ' ' == '/'

/-- Model of posixpath `os.path.join` for the two-argument uses in the source:
an absolute second part replaces the first; otherwise the parts are joined
with a slash unless the first is empty or already ends in one. -/
def osPathJoin (a b : String) : String :=
  if headIsSlash b then b
  else if a = "" then b
  else if lastIsSlash a then a ++ b
  else a ++ "/" ++ b

/-- Model of the `slurm_jobname` property: the stored attribute when set,
else a fixed prefix plus the wrapper's id. -/
def slurmJobnameOf (slurmJobnameAttr : Option String) (idStr : String) : String :=
  match slurmJobnameAttr with
  | none => "CVfunc_id_" ++ idStr
  | some s => s

/-- Message of the `RuntimeError` raised on a non-zero exit code, mirroring
the f-string concatenation in the source. -/
def nonzeroExitMsg (exe trajRepr jobid : String) (returncode : Int)
    (stderr stdout : String) : String :=
  "Non-zero exit code from CV batch job for executable " ++ (exe ++
    (" on trajectory " ++ (trajRepr ++ (" (slurm jobid " ++ (jobid ++
      ("). Exit code was: " ++ (toString returncode ++ (". stderr was: " ++
        (stderr ++ (". and stdout was: " ++ stdout))))))))))

/-- Externally visible effects performed by one `get_values_for_trajectory`
call, in program order. The two semaphore events of each kind correspond to
`_SEMAPHORES["MAX_FILES_OPEN"]` (files) and `_SEMAPHORES["SLURM_MAX_JOB"]`
(job). `submitJob` stands for `slurm.create_slurmprocess_submit(...)`,
`communicate` for `await slurm_proc.communicate()`, `kill` for
`slurm_proc.kill()`, `npLoad` for `np.load`, and `loadResultsFuncCall` for a
call of the user-supplied custom loader. -/
inductive Event where
  | acquireFilesSem : Event
  | releaseFilesSem : Event
  | writeFile : String → String → Event
  | acquireJobSem : Event
  | releaseJobSem : Event
  | submitJob : String → String → String → Event
  | communicate : Event
  | kill : Event
  | removeFile : String → Event
  | npLoad : String → Event
  | loadResultsFuncCall : String → Event
  deriving DecidableEq, Repr

/-- How one `get_values_for_trajectory` call terminates. `success p custom`
returns the values loaded from path `p` (via the custom loader when `custom`
is true); `raisedError` is the `RuntimeError` with its message;
`cancelled` means `asyncio.CancelledError` was re-raised to the caller;
`unboundLocalError` means the `except` handler itself crashed evaluating
`slurm_proc.kill()` with `slurm_proc` never assigned. -/
inductive Outcome where
  | success : String → Bool → Outcome
  | raisedError : String → Outcome
  | cancelled : Outcome
  | unboundLocalError : Outcome
  deriving DecidableEq, Repr

/-- The suspension points inside the `try` block at which an external
cancellation can be delivered. -/
inductive CancelPoint where
  | duringSubmit : CancelPoint
  | duringCommunicate : CancelPoint
  deriving DecidableEq, Repr

/-- The external world one call runs against: whether the
`_SEMAPHORES["SLURM_MAX_JOB"]` bound is configured (not `None`), whether and
where a cancellation is delivered, and the job's exit code, captured streams
and queue-assigned id observed when it runs to completion. -/
structure SlurmEnv where
  slurmMaxJobConfigured : Bool
  cancel : Option CancelPoint
  returncode : Int
  stdout : String
  stderr : String
  slurm_jobid : String
  deriving DecidableEq, Repr

/-- The fields of a `SlurmTrajectoryFunctionWrapper` read by
`get_values_for_trajectory`. The sbatch script template is kept as the text
before and after its one `cmd_str` placeholder, so `.format(cmd_str=...)` is
the concatenation pre ++ cmd ++ post. `load_results_func` records whether a
custom loader was supplied (`None` or a function). -/
structure SlurmWrapper where
  executable : String
  sbatchScriptPre : String
  sbatchScriptPost : String
  call_kwargs : List (String × PyValue)
  load_results_func : Bool
  idStr : String
  slurmJobnameAttr : Option String

/-- The fields of the trajectory collaborator read by
`get_values_for_trajectory`: structure file path, file-part paths, the
textual form of `trajectory_hash`, and `str(traj)` as interpolated into the
error message. -/
structure Traj where
  structure_file : String
  trajectory_files : List String
  trajectoryHashStr : String
  reprStr : String
  deriving DecidableEq, Repr

/-- The per-trajectory, per-wrapper result-file path derived at the start of
`get_values_for_trajectory`: the trajectory's directory joined with the first
file-part's name, the first five characters of `str(trajectory_hash)`, a
fixed marker and the wrapper's id. -/
def resultFileOf (w : SlurmWrapper) (traj : Traj) : String :=
  let st := osPathSplit (traj.trajectory_files.headD "")
  osPathJoin st.1 (st.2 ++ "_" ++ traj.trajectoryHashStr.take 5 ++ "_CVfunc_id_" ++ w.idStr)

/-- Effect-trace model of `SlurmTrajectoryFunctionWrapper.
get_values_for_trajectory`: returns the list of external effects in program
order together with the outcome. The `try / except CancelledError / else /
finally` control flow is laid out explicitly: the job-semaphore release from
the `finally` clause is appended on every path; a cancellation delivered at
the submission await reaches the `except` handler with `slurm_proc` unbound,
so the handler raises `UnboundLocalError` and never calls `kill`; a
cancellation delivered at the communicate await kills the job and re-raises;
otherwise the `else` clause raises on a non-zero exit code and on success
removes the script file and loads (then removes) the result file. The
`os.path.exists` check before writing only logs, so it has no effect here. -/
def getValuesForTrajectory (w : SlurmWrapper) (traj : Traj) (env : SlurmEnv) :
    List Event × Outcome :=
  let st := osPathSplit (traj.trajectory_files.headD "")
  let traDir := st.1
  let traName := st.2
  let resultFile := resultFileOf w traj
  let cmdStr := buildCmdStr w.executable traj.structure_file traj.trajectory_files
    resultFile w.call_kwargs
  let script := w.sbatchScriptPre ++ cmdStr ++ w.sbatchScriptPost
  let jobname := slurmJobnameOf w.slurmJobnameAttr w.idStr
  let sbatchFname := osPathJoin traDir (traName ++ "_" ++ jobname ++ ".slurm")
  let preEvents := [Event.acquireFilesSem, Event.writeFile sbatchFname script,
      Event.releaseFilesSem]
    ++ (if env.slurmMaxJobConfigured then [Event.acquireJobSem] else [])
  let finallyEvents := if env.slurmMaxJobConfigured then [Event.releaseJobSem] else []
  match env.cancel with
  | some CancelPoint.duringSubmit =>
      (preEvents ++ finallyEvents, Outcome.unboundLocalError)
  | some CancelPoint.duringCommunicate =>
      (preEvents ++ [Event.submitJob jobname sbatchFname traDir, Event.communicate,
        Event.kill] ++ finallyEvents, Outcome.cancelled)
  | none =>
      let runEvents := preEvents ++ [Event.submitJob jobname sbatchFname traDir,
        Event.communicate]
      if env.returncode ≠ 0 then
        (runEvents ++ finallyEvents,
         Outcome.raisedError (nonzeroExitMsg w.executable traj.reprStr env.slurm_jobid
           env.returncode env.stderr env.stdout))
      else if w.load_results_func = false then
        (runEvents ++ [Event.removeFile sbatchFname, Event.npLoad (resultFile ++ ".npy"),
           Event.removeFile (resultFile ++ ".npy")] ++ finallyEvents,
         Outcome.success (resultFile ++ ".npy") false)
      else
        (runEvents ++ [Event.removeFile sbatchFname, Event.loadResultsFuncCall resultFile,
           Event.removeFile resultFile] ++ finallyEvents,
         Outcome.success resultFile true)

/-! ### The `**kwargs` attribute-setting loop of `TrajectoryFunctionWrapper.__init__` -/

/-- Model of `getattr(self, name, default)` over an attribute map: the value
of the first binding with the given name, if any. -/
def lookupAttr : List (String × PyValue) → String → Option PyValue
  | [], _ => none
  | (k, v) :: rest, key => if k == key then some v else lookupAttr rest key

/-- Model of `setattr(self, name, value)` over an attribute map. -/
def setAttr : List (String × PyValue) → String → PyValue → List (String × PyValue)
  | [], key, val => [(key, val)]
  | (k, v) :: rest, key, val =>
      if k == key then (key, val) :: rest else (k, v) :: setAttr rest key val

/-- Python's rendering of `type(...)` for the modelled types, as interpolated
into the constructor's `TypeError` message. -/
def pyTypeName : PyType → String
  | PyType.TNone => "<class " ++ sQuote ++ "NoneType" ++ sQuote ++ ">"
  | PyType.TBool => "<class " ++ sQuote ++ "bool" ++ sQuote ++ ">"
  | PyType.TInt => "<class " ++ sQuote ++ "int" ++ sQuote ++ ">"
  | PyType.TStr => "<class " ++ sQuote ++ "str" ++ sQuote ++ ">"
  | PyType.TList => "<class " ++ sQuote ++ "list" ++ sQuote ++ ">"
  | PyType.TDict => "<class " ++ sQuote ++ "dict" ++ sQuote ++ ">"

/-- The `TypeError` message raised by the constructor's kwargs loop for a
value whose type does not match the attribute's current value's type. -/
def mismatchMsg (kwarg : String) (value cval : PyValue) : String :=
  "Setting attribute " ++ kwarg ++ " with mismatching type (" ++
    pyTypeName (typeOf value) ++ ").  Default type is " ++ pyTypeName (typeOf cval) ++ "."

/-- Model of the `for kwarg, value in kwargs.items()` loop of
`TrajectoryFunctionWrapper.__init__`: a keyword argument naming an existing
attribute is set when `isinstance(value, type(cval))` holds for the current
value `cval` and raises `TypeError` otherwise; a keyword argument naming no
existing attribute is skipped. -/
def initSetKwargs (attrs : List (String × PyValue)) :
    List (String × PyValue) → Except String (List (String × PyValue))
  | [] => Except.ok attrs
  | (kwarg, value) :: rest =>
      match lookupAttr attrs kwarg with
      | none => initSetKwargs attrs rest
      | some cval =>
          if isInst value (typeOf cval) then
            initSetKwargs (setAttr attrs kwarg value) rest
          else
            Except.error (mismatchMsg kwarg value cval)

/-- The attributes `TrajectoryFunctionWrapper.__init__` sets before entering
the kwargs loop: `_id = None` and `_call_kwargs` an empty dict. -/
def baseInitAttrs : List (String × PyValue) := [("_id", VNone), ("_call_kwargs", VDict [])]

/-! ### String containment (for the error-message claims) -/

/-- The string `sub` occurs contiguously inside `s`. -/
def ContainsStr (s sub : String) : Prop :=
  ∃ pre post : String, s = pre ++ (sub ++ post)

/-! ### Supporting lemmas -/

theorem natDecRevDigits_lt_ten (fuel : Nat) : ∀ n : Nat, n < fuel →
    ∀ d ∈ natDecRevDigits fuel n, d < 10 := by
  induction fuel with
  | zero => omega
  | succ f ih =>
    intro n hn d hd
    simp only [natDecRevDigits] at hd
    by_cases h : n < 10
    · simp [h] at hd; omega
    · simp [h] at hd
      rcases hd with h1 | h2
      · omega
      · exact ih (n / 10) (by omega) d h2

theorem natDecRevDigits_val (fuel : Nat) : ∀ n : Nat, n < fuel →
    (natDecRevDigits fuel n).foldr (fun d a => a * 10 + d) 0 = n := by
  induction fuel with
  | zero => omega
  | succ f ih =>
    intro n hn
    simp only [natDecRevDigits]
    by_cases h : n < 10
    · simp [h]
    · simp [h, ih (n / 10) (by omega)]
      omega

/-- Decimal parse, used to show `decimalStr` is injective via a roundtrip. -/
def parseDecVal (s : String) : Nat :=
  s.data.foldl (fun a c => a * 10 + (c.toNat - 48)) 0

theorem foldr_digitChar (l : List Nat) (hl : ∀ d ∈ l, d < 10) :
    l.foldr (fun d a => a * 10 + ((Nat.digitChar d).toNat - 48)) 0 =
      l.foldr (fun d a => a * 10 + d) 0 := by
  induction l with
  | nil => rfl
  | cons d rest ih =>
    have hd : d < 10 := hl d (by simp)
    have hrest := ih (fun x hx => hl x (by simp [hx]))
    have hchar : ∀ x : Nat, x < 10 → ((Nat.digitChar x).toNat - 48) = x := by decide
    simp [hrest, hchar d hd]

theorem parseDecVal_decimalStr (n : Nat) : parseDecVal (decimalStr n) = n := by
  have hlt := natDecRevDigits_lt_ten (n + 1) n (by omega)
  have hval := natDecRevDigits_val (n + 1) n (by omega)
  simp only [parseDecVal, decimalStr, List.foldl_reverse, List.foldr_map]
  rw [foldr_digitChar _ hlt]
  exact hval

theorem decimalStr_injective {a b : Nat} (h : decimalStr a = decimalStr b) : a = b := by
  have h2 := congrArg parseDecVal h
  rwa [parseDecVal_decimalStr, parseDecVal_decimalStr] at h2

theorem idSum_foldl (l : List (String × PyValue)) : ∀ n : Nat,
    l.foldl (fun idAcc kv => idAcc + hashOfStr (pyStr kv.2) + hashOfStr kv.1) n =
      n + (l.map (fun kv => hashOfStr (pyStr kv.2) + hashOfStr kv.1)).sum := by
  induction l with
  | nil => intro n; simp
  | cons kv rest ih => intro n; simp [ih]; ring

theorem idSum_eq_sum (kwargs : List (String × PyValue)) :
    idSum kwargs = (kwargs.map (fun kv => hashOfStr (pyStr kv.2) + hashOfStr kv.1)).sum := by
  simpa [idSum] using idSum_foldl kwargs 0

theorem idSum_perm {k1 k2 : List (String × PyValue)} (h : k1.Perm k2) :
    idSum k1 = idSum k2 := by
  rw [idSum_eq_sum, idSum_eq_sum]
  exact (h.map _).sum_eq

theorem idSum_middle (pre post : List (String × PyValue)) (key : String) (v : PyValue) :
    idSum (pre ++ (key, v) :: post) =
      idSum pre + (hashOfStr (pyStr v) + hashOfStr key) + idSum post := by
  simp [idSum_eq_sum]
  ring

/-! ### Claim theorems -/

set_option maxRecDepth 40000

/-- C1 counterexample: a `PyTrajectoryFunctionWrapper` whose identity is
undefined (`None`), called on a `Trajectory`, does not raise a `TypeError`
but silently invokes the wrapped callable
(`return self._func(value, **self._call_kwargs)`). -/
theorem py_call_undefined_id_counterexample :
    pyDunderCall none true = CallOutcome.directInvoke ∧
    pyDunderCall none true ≠ CallOutcome.typeError := by
  exact ⟨rfl, by decide⟩

/-- C1 (amended): the abstract base `__call__` raises a `TypeError` whenever
the identity is undefined or the argument is not a `Trajectory`, and
delegates to the trajectory's cache-aware method (passing the identity and
the wrapper) when both hold; the overriding `PyTrajectoryFunctionWrapper.
__call__` delegates under the same condition but otherwise falls back to
invoking the wrapped callable synchronously instead of raising. -/
theorem call_entry_points_amended :
    (∀ i, baseDunderCall (some i) true = CallOutcome.delegate i) ∧
    (baseDunderCall none true = CallOutcome.typeError) ∧
    (∀ o, baseDunderCall o false = CallOutcome.typeError) ∧
    (∀ i, pyDunderCall (some i) true = CallOutcome.delegate i) ∧
    (pyDunderCall none true = CallOutcome.directInvoke) ∧
    (∀ o, pyDunderCall o false = CallOutcome.directInvoke) := by
  refine ⟨fun i => rfl, rfl, ?_, fun i => rfl, rfl, ?_⟩ <;> intro o <;> cases o <;> rfl

/-- C2 counterexample: changing the single kwarg value from the integer 1 to
the string "1" (two different Python values) does not change the identity
string, because `_get_id_str` hashes `str(value)` and both render as "1". -/
theorem id_str_value_change_counterexample :
    pyGetIdStr [("n_frames", VInt 1)] (some "def f(traj): return traj") =
      pyGetIdStr [("n_frames", VStr "1")] (some "def f(traj): return traj") ∧
    VInt 1 ≠ VStr "1" :=
  ⟨rfl, fun h => PyValue.noConfusion h⟩

/-- C2 (amended): identity derivation is a pure function of its inputs; the
insertion order of the call_kwargs entries never affects the resulting string
(for the local and the remote variant alike); and changing a single kwarg
value, or the content, changes the string whenever the blake2b digest of its
textual representation changes — values with equal textual representation
(such as the integer 1 and the string "1") collide. -/
theorem id_str_pure_order_free_change_sensitive :
    (∀ kwargs funcSrc, pyGetIdStr kwargs funcSrc = pyGetIdStr kwargs funcSrc) ∧
    (∀ k1 k2 funcSrc, k1.Perm k2 → pyGetIdStr k1 funcSrc = pyGetIdStr k2 funcSrc) ∧
    (∀ k1 k2 exeData, k1.Perm k2 → slurmGetIdStr k1 exeData = slurmGetIdStr k2 exeData) ∧
    (∀ pre post key v1 v2 funcSrc,
      hashOfStr (pyStr v1) ≠ hashOfStr (pyStr v2) →
      pyGetIdStr (pre ++ (key, v1) :: post) funcSrc ≠
        pyGetIdStr (pre ++ (key, v2) :: post) funcSrc) ∧
    (∀ kwargs s1 s2,
      hashOfStr (strOfFuncSrc s1) ≠ hashOfStr (strOfFuncSrc s2) →
      pyGetIdStr kwargs s1 ≠ pyGetIdStr kwargs s2) ∧
    (∀ pre post key v1 v2 exeData,
      hashOfStr (pyStr v1) ≠ hashOfStr (pyStr v2) →
      slurmGetIdStr (pre ++ (key, v1) :: post) exeData ≠
        slurmGetIdStr (pre ++ (key, v2) :: post) exeData) ∧
    (∀ kwargs d1 d2,
      blake2bNat d1 ≠ blake2bNat d2 →
      slurmGetIdStr kwargs d1 ≠ slurmGetIdStr kwargs d2) := by
  refine ⟨fun _ _ => rfl, ?_, ?_, ?_, ?_, ?_, ?_⟩
  · intro k1 k2 funcSrc h
    simp [pyGetIdStr, idSum_perm h]
  · intro k1 k2 exeData h
    simp [slurmGetIdStr, idSum_perm h]
  · intro pre post key v1 v2 funcSrc hne heq
    have h2 := decimalStr_injective heq
    rw [idSum_middle, idSum_middle] at h2
    omega
  · intro kwargs s1 s2 hne heq
    have h2 := decimalStr_injective heq
    omega
  · intro pre post key v1 v2 exeData hne heq
    have h2 := decimalStr_injective heq
    rw [idSum_middle, idSum_middle] at h2
    omega
  · intro kwargs d1 d2 hne heq
    have h2 := decimalStr_injective heq
    omega

/-- C2 witness: the amended theorem applied at concrete inputs — swapping two
kwargs leaves the identity unchanged, while changing a value from 1 to 2 or
the function source from "a" to "b" changes it (the digests are computed by
the kernel). -/
theorem id_str_witness :
    pyGetIdStr [("a", VInt 1), ("b", VInt 2)] (some "def f: pass") =
      pyGetIdStr [("b", VInt 2), ("a", VInt 1)] (some "def f: pass") ∧
    pyGetIdStr [("a", VInt 1)] none ≠ pyGetIdStr [("a", VInt 2)] none ∧
    pyGetIdStr [] (some "a") ≠ pyGetIdStr [] (some "b") :=
  ⟨id_str_pure_order_free_change_sensitive.2.1 _ _ (some "def f: pass")
      (List.Perm.swap _ _ _),
   id_str_pure_order_free_change_sensitive.2.2.2.1 [] [] "a" (VInt 1) (VInt 2) none
      (by decide),
   id_str_pure_order_free_change_sensitive.2.2.2.2.1 [] (some "a") (some "b")
      (by decide)⟩

/-- C7 counterexample: when `inspect.getsource` fails, the `function` setter
does not raise a configuration error — it returns normally (with a warning
logged, source and identity set to `None`, the callable stored). -/
theorem missing_source_no_error_counterexample :
    functionSetter none [] =
      Except.ok { func_src := none, id := none, funcStored := true,
                  warningLogged := true } := rfl

/-- C7 (amended): for every wrapper whose wrapped callable's source text
cannot be retrieved, the `function` setter raises nothing: it logs a warning
at configuration time, leaves the stored source and the identity undefined
(`None`), and still stores the callable. -/
theorem missing_source_warns_and_clears_id :
    ∀ kwargs, functionSetter none kwargs =
      Except.ok { func_src := none, id := none, funcStored := true,
                  warningLogged := true } :=
  fun _ => rfl

/-- C9: the `call_kwargs` setter raises a `TypeError` when the assigned value
is not a dict, and otherwise stores the mapping and recomputes the identity
(via the subclass's `_get_id_str` on the new kwargs) as a side effect. -/
theorem call_kwargs_setter_validates_and_recomputes :
    (∀ (getIdStrFn : List (String × PyValue) → String) (value : PyValue),
      isInst value PyType.TDict = false →
      callKwargsSetter getIdStrFn value =
        Except.error "call_kwargs must be a dictionary.") ∧
    (∀ (getIdStrFn : List (String × PyValue) → String) kws,
      callKwargsSetter getIdStrFn (VDict kws) = Except.ok (kws, getIdStrFn kws)) := by
  constructor
  · intro getIdStrFn value h
    cases value with
    | VDict kws => simp [isInst, typeOf] at h
    | VNone => rfl
    | VBool b => rfl
    | VInt n => rfl
    | VStr s => rfl
    | VList xs => rfl
  · intro getIdStrFn kws
    rfl

/-- C9 witness: the setter applied to a non-dict value (the int 3) raises the
`TypeError`, and applied to a one-entry dict stores it and recomputes the id. -/
theorem call_kwargs_setter_witness :
    callKwargsSetter (fun kws => pyGetIdStr kws none) (VInt 3) =
      Except.error "call_kwargs must be a dictionary." ∧
    callKwargsSetter (fun kws => pyGetIdStr kws none) (VDict [("a", VInt 1)]) =
      Except.ok ([("a", VInt 1)], pyGetIdStr [("a", VInt 1)] none) :=
  ⟨call_kwargs_setter_validates_and_recomputes.1 _ (VInt 3) rfl,
   call_kwargs_setter_validates_and_recomputes.2 _ [("a", VInt 1)]⟩

/-- C10 counterexample: a keyword argument whose value's type (`bool`) is not
equal to the current value's type (`int`) is still set without a `TypeError`,
because the constructor checks `isinstance(value, type(cval))` and `bool` is
a subclass of `int`. -/
theorem init_kwargs_type_equality_counterexample :
    initSetKwargs [("x", VInt 0)] [("x", VBool true)] =
      Except.ok [("x", VBool true)] ∧
    typeOf (VBool true) ≠ typeOf (VInt 0) := by
  exact ⟨rfl, by decide⟩

/-- C10 (amended): a keyword argument naming an attribute with a current
value is set exactly when the supplied value is an instance of the current
value's type (equal type or a subclass, e.g. a bool where an int is current)
and raises a `TypeError` otherwise; a keyword argument naming no existing
attribute is silently ignored. -/
theorem init_kwargs_isinstance_gate :
    ∀ attrs kwarg value,
      (lookupAttr attrs kwarg = none →
        initSetKwargs attrs [(kwarg, value)] = Except.ok attrs) ∧
      (∀ cval, lookupAttr attrs kwarg = some cval →
        (isInst value (typeOf cval) = true →
          initSetKwargs attrs [(kwarg, value)] =
            Except.ok (setAttr attrs kwarg value)) ∧
        (isInst value (typeOf cval) = false →
          initSetKwargs attrs [(kwarg, value)] =
            Except.error (mismatchMsg kwarg value cval))) := by
  intro attrs kwarg value
  constructor
  · intro h
    simp [initSetKwargs, h]
  · intro cval h
    constructor
    · intro hi
      simp [initSetKwargs, h, hi]
    · intro hi
      simp [initSetKwargs, h, hi]

/-- C10 witness: on the attributes the base constructor has set, a kwarg
naming no attribute is ignored, and a kwarg of mismatching type for `_id`
(current value `None`) raises the `TypeError`. -/
theorem init_kwargs_witness :
    initSetKwargs baseInitAttrs [("junk", VInt 1)] = Except.ok baseInitAttrs ∧
    initSetKwargs baseInitAttrs [("_id", VStr "7")] =
      Except.error (mismatchMsg "_id" (VStr "7") VNone) :=
  ⟨(init_kwargs_isinstance_gate baseInitAttrs "junk" (VInt 1)).1 rfl,
   ((init_kwargs_isinstance_gate baseInitAttrs "_id" (VStr "7")).2 VNone rfl).2 rfl⟩

theorem foldl_strAppend (l : List String) : ∀ s : String,
    l.foldl (fun a b => a ++ b) s = s ++ l.foldl (fun a b => a ++ b) "" := by
  induction l with
  | nil => intro s; simp
  | cons x rest ih =>
    intro s
    simp only [List.foldl_cons]
    rw [ih (s ++ x), ih ("" ++ x)]
    simp [String.append_assoc]

theorem foldl_kwargFrag (l : List (String × PyValue)) (base : String) :
    l.foldl (fun c kv => c ++ kwargFrag kv) base =
      base ++ String.join (l.map kwargFrag) := by
  have h1 : l.foldl (fun c kv => c ++ kwargFrag kv) base =
      (l.map kwargFrag).foldl (fun a b => a ++ b) base :=
    (List.foldl_map _ _ _ _).symm
  rw [h1, foldl_strAppend]
  rfl

/-- C8: the command line built by `get_values_for_trajectory` equals, for all
inputs, the spec's decomposition: executable path, structure-file path, all
trajectory file-part paths, result-file path, then one " key value" fragment
per call_kwargs entry with only the values shell-escaped and list values
rendered as multiple escaped tokens joined by spaces. -/
theorem cmd_line_matches_spec (executable structureFile : String)
    (trajectoryFiles : List String) (resultFile : String)
    (kwargs : List (String × PyValue)) :
    buildCmdStr executable structureFile trajectoryFiles resultFile kwargs =
      specCmdLine executable structureFile trajectoryFiles resultFile kwargs := by
  have hfrag : (fun kv : String × PyValue =>
      match kv.2 with
      | PyValue.VList vs =>
          " " ++ kv.1 ++ " " ++ " ".intercalate (vs.map (fun v => shlexQuote (pyStr v)))
      | v => " " ++ kv.1 ++ " " ++ shlexQuote (pyStr v)) = kwargFrag := by
    funext kv
    rcases kv with ⟨k, v⟩
    cases v <;> rfl
  simp only [buildCmdStr, specCmdLine, hfrag]
  by_cases h : kwargs.length > 0
  · rw [if_pos h, foldl_kwargFrag]
  · rw [if_neg h]
    have hk : kwargs = [] := List.length_eq_zero.mp (by omega)
    subst hk
    simp [String.join]

theorem containsStr_head (a b c : String) : ContainsStr (a ++ (b ++ c)) b :=
  ⟨a, c, rfl⟩

theorem containsStr_tail (a : String) {s sub : String} (h : ContainsStr s sub) :
    ContainsStr (a ++ s) sub := by
  obtain ⟨p, q, hpq⟩ := h
  exact ⟨a ++ p, q, by rw [hpq, String.append_assoc]⟩

theorem containsStr_last (a b : String) : ContainsStr (a ++ b) b :=
  ⟨a, "", by rw [String.append_empty]⟩

/-- Example wrapper used by concrete witness and counterexample theorems
(default npy loading). -/
def exW : SlurmWrapper :=
  { executable := "/usr/bin/cvfunc", sbatchScriptPre := "#!/bin/bash\n",
    sbatchScriptPost := "\n", call_kwargs := [("-v", VStr "")],
    load_results_func := false, idStr := "77", slurmJobnameAttr := none }

/-- Example wrapper with a custom result loader supplied. -/
def exWLoader : SlurmWrapper := { exW with load_results_func := true }

/-- Example trajectory collaborator. -/
def exTraj : Traj :=
  { structure_file := "/data/conf.gro", trajectory_files := ["/data/tra.xtc"],
    trajectoryHashStr := "1234567890", reprStr := "Trajectory(tra.xtc)" }

/-- Example environment: configured job permit, no cancellation, exit 0. -/
def exEnvOk : SlurmEnv :=
  { slurmMaxJobConfigured := true, cancel := none, returncode := 0,
    stdout := "", stderr := "", slurm_jobid := "4242" }

/-- Example failing environment: exit code 7 with "boom" on stderr. -/
def exEnvFail : SlurmEnv := { exEnvOk with returncode := 7, stderr := "boom" }

/-- C3: the model evaluated at the failing input. A cancellation delivered at
the submission await reaches the `except asyncio.CancelledError` handler with
the local `slurm_proc` never assigned, so `slurm_proc.kill()` raises
`UnboundLocalError`: the job is not killed and the cancellation is not
re-raised. At the communicate await (once the handle is bound) the kill does
happen before the cancellation is re-raised, as the claim describes. -/
theorem cancel_during_submit_no_kill :
    (getValuesForTrajectory exW exTraj
        { exEnvOk with cancel := some CancelPoint.duringSubmit }).2 =
      Outcome.unboundLocalError ∧
    Event.kill ∉ (getValuesForTrajectory exW exTraj
        { exEnvOk with cancel := some CancelPoint.duringSubmit }).1 ∧
    (getValuesForTrajectory exW exTraj
        { exEnvOk with cancel := some CancelPoint.duringCommunicate }).2 =
      Outcome.cancelled ∧
    Event.kill ∈ (getValuesForTrajectory exW exTraj
        { exEnvOk with cancel := some CancelPoint.duringCommunicate }).1 := by
  refine ⟨rfl, by decide, rfl, by decide⟩

/-- C4: a job handle reporting a non-zero exit code makes the call raise a
computation error whose message carries the executable identity, the
trajectory identity, the queue-assigned job id, the exit code, and the
captured stderr and stdout; the result file is not read (no npy load and no
custom-loader call), and no file is removed — in particular the
submission-script file persists after the failure. -/
theorem nonzero_exit_error_behavior (w : SlurmWrapper) (traj : Traj) (env : SlurmEnv)
    (hrc : env.returncode ≠ 0) (hcancel : env.cancel = none) :
    (getValuesForTrajectory w traj env).2 =
      Outcome.raisedError (nonzeroExitMsg w.executable traj.reprStr env.slurm_jobid
        env.returncode env.stderr env.stdout) ∧
    ContainsStr (nonzeroExitMsg w.executable traj.reprStr env.slurm_jobid
      env.returncode env.stderr env.stdout) w.executable ∧
    ContainsStr (nonzeroExitMsg w.executable traj.reprStr env.slurm_jobid
      env.returncode env.stderr env.stdout) traj.reprStr ∧
    ContainsStr (nonzeroExitMsg w.executable traj.reprStr env.slurm_jobid
      env.returncode env.stderr env.stdout) env.slurm_jobid ∧
    ContainsStr (nonzeroExitMsg w.executable traj.reprStr env.slurm_jobid
      env.returncode env.stderr env.stdout) (toString env.returncode) ∧
    ContainsStr (nonzeroExitMsg w.executable traj.reprStr env.slurm_jobid
      env.returncode env.stderr env.stdout) env.stderr ∧
    ContainsStr (nonzeroExitMsg w.executable traj.reprStr env.slurm_jobid
      env.returncode env.stderr env.stdout) env.stdout ∧
    (∀ p, Event.npLoad p ∉ (getValuesForTrajectory w traj env).1) ∧
    (∀ p, Event.loadResultsFuncCall p ∉ (getValuesForTrajectory w traj env).1) ∧
    (∀ p, Event.removeFile p ∉ (getValuesForTrajectory w traj env).1) := by
  refine ⟨?_,
    containsStr_head _ _ _,
    containsStr_tail _ (containsStr_tail _ (containsStr_head _ _ _)),
    containsStr_tail _ (containsStr_tail _ (containsStr_tail _ (containsStr_tail _
      (containsStr_head _ _ _)))),
    containsStr_tail _ (containsStr_tail _ (containsStr_tail _ (containsStr_tail _
      (containsStr_tail _ (containsStr_tail _ (containsStr_head _ _ _)))))),
    containsStr_tail _ (containsStr_tail _ (containsStr_tail _ (containsStr_tail _
      (containsStr_tail _ (containsStr_tail _ (containsStr_tail _ (containsStr_tail _
        (containsStr_head _ _ _)))))))),
    containsStr_tail _ (containsStr_tail _ (containsStr_tail _ (containsStr_tail _
      (containsStr_tail _ (containsStr_tail _ (containsStr_tail _ (containsStr_tail _
        (containsStr_tail _ (containsStr_tail _ (containsStr_last _ _)))))))))),
    ?_, ?_, ?_⟩
  · cases hcfg : env.slurmMaxJobConfigured <;>
      simp [getValuesForTrajectory, hcancel, hrc, hcfg]
  · intro p
    cases hcfg : env.slurmMaxJobConfigured <;>
      simp [getValuesForTrajectory, hcancel, hrc, hcfg]
  · intro p
    cases hcfg : env.slurmMaxJobConfigured <;>
      simp [getValuesForTrajectory, hcancel, hrc, hcfg]
  · intro p
    cases hcfg : env.slurmMaxJobConfigured <;>
      simp [getValuesForTrajectory, hcancel, hrc, hcfg]

/-- C4 witness: the theorem applied to a stub environment exiting 7 with
"boom" on stderr — the call raises, the message contains "boom", and the
script file is not removed. -/
theorem nonzero_exit_error_witness :
    (getValuesForTrajectory exW exTraj exEnvFail).2 =
      Outcome.raisedError (nonzeroExitMsg "/usr/bin/cvfunc" "Trajectory(tra.xtc)"
        "4242" 7 "boom" "") ∧
    ContainsStr (nonzeroExitMsg "/usr/bin/cvfunc" "Trajectory(tra.xtc)"
      "4242" 7 "boom" "") "boom" ∧
    (∀ p, Event.removeFile p ∉ (getValuesForTrajectory exW exTraj exEnvFail).1) := by
  have h := nonzero_exit_error_behavior exW exTraj exEnvFail (by decide) rfl
  exact ⟨h.1, h.2.2.2.2.2.1, h.2.2.2.2.2.2.2.2.2⟩

/-- C5: the queued-job permit is acquired and released in balance on every
exit path of `get_values_for_trajectory` — success with either loader,
execution failure, cancellation at either await, with or without the permit
configured: one release per acquisition, exactly one each when the permit is
configured and none otherwise. -/
theorem job_permit_balanced (w : SlurmWrapper) (traj : Traj) (env : SlurmEnv) :
    ((getValuesForTrajectory w traj env).1.count Event.acquireJobSem =
      (getValuesForTrajectory w traj env).1.count Event.releaseJobSem) ∧
    (env.slurmMaxJobConfigured = true →
      (getValuesForTrajectory w traj env).1.count Event.acquireJobSem = 1) ∧
    (env.slurmMaxJobConfigured = false →
      (getValuesForTrajectory w traj env).1.count Event.acquireJobSem = 0) := by
  rcases env with ⟨cfg, cancel, rc, so, se, jid⟩
  by_cases hrc : rc = 0 <;>
    cases cfg <;>
    cases hl : w.load_results_func <;>
    rcases cancel with _ | p <;>
    (try cases p) <;>
    refine ⟨?_, ?_, ?_⟩ <;>
    simp [getValuesForTrajectory, hrc, hl, List.count_append, List.count_cons,
      List.count_nil]

/-- C5 witness: with the permit configured, a successful call acquires and
releases the queued-job permit exactly once each. -/
theorem job_permit_balanced_witness :
    (getValuesForTrajectory exW exTraj exEnvOk).1.count Event.acquireJobSem = 1 ∧
    (getValuesForTrajectory exW exTraj exEnvOk).1.count Event.releaseJobSem = 1 := by
  have h := job_permit_balanced exW exTraj exEnvOk
  exact ⟨h.2.1 rfl, h.1 ▸ h.2.1 rfl⟩

/-- C6 counterexample: on a successful call with a custom loader supplied,
the backend itself removes the file at the non-extended result-file path it
passed to the loader — it does not leave deletion to the loader. -/
theorem custom_loader_backend_removes_counterexample :
    (getValuesForTrajectory exWLoader exTraj exEnvOk).2 =
      Outcome.success "/data/tra.xtc_12345_CVfunc_id_77" true ∧
    Event.removeFile "/data/tra.xtc_12345_CVfunc_id_77" ∈
      (getValuesForTrajectory exWLoader exTraj exEnvOk).1 := by
  exact ⟨rfl, by decide⟩

/-- C6 (amended): on a successful call without a custom loader the result is
loaded from the result-file path plus the fixed ".npy" extension and that
file is then deleted by the backend; with a custom loader the loader is
called with the result-file path without the extension (no npy load happens)
and the backend then also deletes the file at that non-extended path. -/
theorem result_loading_and_cleanup (w : SlurmWrapper) (traj : Traj) (env : SlurmEnv)
    (hcancel : env.cancel = none) (hrc : env.returncode = 0) :
    (w.load_results_func = false →
      (getValuesForTrajectory w traj env).2 =
        Outcome.success (resultFileOf w traj ++ ".npy") false ∧
      Event.npLoad (resultFileOf w traj ++ ".npy") ∈
        (getValuesForTrajectory w traj env).1 ∧
      Event.removeFile (resultFileOf w traj ++ ".npy") ∈
        (getValuesForTrajectory w traj env).1) ∧
    (w.load_results_func = true →
      (getValuesForTrajectory w traj env).2 =
        Outcome.success (resultFileOf w traj) true ∧
      Event.loadResultsFuncCall (resultFileOf w traj) ∈
        (getValuesForTrajectory w traj env).1 ∧
      Event.removeFile (resultFileOf w traj) ∈
        (getValuesForTrajectory w traj env).1 ∧
      (∀ p, Event.npLoad p ∉ (getValuesForTrajectory w traj env).1)) := by
  constructor
  · intro hl
    cases hcfg : env.slurmMaxJobConfigured <;>
      refine ⟨?_, ?_, ?_⟩ <;>
      simp [getValuesForTrajectory, hcancel, hrc, hl, hcfg]
  · intro hl
    refine ⟨?_, ?_, ?_, ?_⟩ <;>
      [skip; skip; skip; intro p] <;>
      cases hcfg : env.slurmMaxJobConfigured <;>
      simp [getValuesForTrajectory, hcancel, hrc, hl, hcfg]

/-- C6 witness: the amended theorem applied to the example wrappers — default
loading reads and deletes the ".npy" file; a custom loader is called with the
non-extended path, which the backend then deletes. -/
theorem result_loading_witness :
    (getValuesForTrajectory exW exTraj exEnvOk).2 =
      Outcome.success ("/data/tra.xtc_12345_CVfunc_id_77" ++ ".npy") false ∧
    Event.removeFile ("/data/tra.xtc_12345_CVfunc_id_77" ++ ".npy") ∈
      (getValuesForTrajectory exW exTraj exEnvOk).1 ∧
    Event.loadResultsFuncCall "/data/tra.xtc_12345_CVfunc_id_77" ∈
      (getValuesForTrajectory exWLoader exTraj exEnvOk).1 := by
  have h1 := (result_loading_and_cleanup exW exTraj exEnvOk rfl rfl).1 rfl
  have h2 := (result_loading_and_cleanup exWLoader exTraj exEnvOk rfl rfl).2 rfl
  exact ⟨h1.1, h1.2.2, h2.2.1⟩
